import Mathlib

/-!
Verification of the dataset-assembly module of wsidicomizer
(`src/wsidicomizer/dataset.py`).

The module builds DICOM metadata records for whole-slide images:
an image-type classification tag (`get_image_type`), per-sample specimen
descriptions (`create_simple_sample`) and the container-level specimen
module (`create_simple_specimen_module`).

External collaborators (the `highdicom` content classes and the
`wsidicom` coded-concept vocabularies) are embedded as plain records and
as abstract closed lookup tables: a vocabulary is a function from
human-readable strings to optional code triples, and an unregistered
string makes the resolving constructor fail with an error naming the
category and the supplied string.  The Python functions of the module
itself are translated statement by statement.
-/

namespace WsiDicomizer

/-- Coded concept: an immutable (code value, coding scheme designator,
code meaning) triple, as used by the DICOM code sequences. -/
structure Code where
  value : String
  scheme : String
  meaning : String
  deriving DecidableEq, Repr

/-- Closed controlled vocabulary for one code category (embedding medium,
fixative, staining agent).  Models the lookup tables of the external
`wsidicom.conceptcode` classes: a human-readable string either maps to
its code triple or is not registered. -/
structure Vocab where
  lookup : String → Option Code

/-- Error raised by the coded-concept constructors when a supplied
human-readable string is not registered in the category's vocabulary.
Carries the category and the offending string. -/
inductive DicomError where
  | UnknownCodeError (category : String) (supplied : String)
  deriving DecidableEq, Repr

/-- Resolving constructor for one category: models
`SpecimenEmbeddingMediaCode(s).code`, `SpecimenFixativesCode(s).code`
and `SpecimenStainsCode(s).code`: the matching code triple, or an
`UnknownCodeError` naming the category and the string. -/
def resolveCode (category : String) (v : Vocab) (s : String) :
    Except DicomError Code :=
  match v.lookup s with
  | some c => Except.ok c
  | none => Except.error (DicomError.UnknownCodeError category s)

/-- Resolution of an optional string argument, mirroring the
`if x is not None: ... else: None` pattern of `create_simple_sample`. -/
def resolveOpt (category : String) (v : Vocab) :
    Option String → Except DicomError (Option Code)
  | some s =>
    match resolveCode category v s with
    | Except.ok c => Except.ok (some c)
    | Except.error e => Except.error e
  | none => Except.ok none

/-- Resolution of every staining string in order, mirroring the list
comprehension `[SpecimenStainsCode(staining).code for staining in
stainings]`: fails at the first unregistered string. -/
def resolveAll (v : Vocab) : List String → Except DicomError (List Code)
  | [] => Except.ok []
  | s :: rest =>
    match resolveCode "staining" v s with
    | Except.error e => Except.error e
    | Except.ok c =>
      match resolveAll v rest with
      | Except.error e => Except.error e
      | Except.ok cs => Except.ok (c :: cs)

/-- Fixed coded concept produced by
`SpecimenPreparationProcedureCode('Staining').code`: the literal
`'Staining'` is always registered in the external procedure table, so the
lookup is a compile-time constant. -/
def stainingProcedureCode : Code :=
  { value := "127790008", scheme := "SCT", meaning := "Staining" }

/-- Record embedded from `highdicom.content.SpecimenStaining`: the ordered
list of staining-substance code triples. -/
structure SpecimenStaining where
  substances : List Code
  deriving DecidableEq, Repr

/-- Record embedded from `highdicom.content.SpecimenPreparationStep`, with
the attributes `create_simple_sample` supplies. -/
structure SpecimenPreparationStep where
  specimen_id : String
  processing_type : Code
  processing_procedure : SpecimenStaining
  embedding_medium : Option Code
  fixative : Option Code
  deriving DecidableEq, Repr

/-- Record embedded from `highdicom.content.SpecimenDescription`, with the
attributes `create_simple_sample` supplies.  The preparation-step argument
is optional in the Python call (`None` or a list), kept as such here. -/
structure SpecimenDescription where
  specimen_id : String
  specimen_uid : String
  specimen_preparation_steps : Option (List SpecimenPreparationStep)
  deriving DecidableEq, Repr

/-- Embedding of `get_image_type` (`dataset.py` lines 17 to 37): the
returned image-type tag, literal for literal.  The first element is the
source's literal string. -/
def get_image_type (image_flavor : String) (level_index : Int) :
    List String :=
  let resampled :=
    if image_flavor = "VOLUME" ∧ level_index = 0 then "NONE"
    else "RESAMPLED"
  ["ORGINAL", "PRIMARY", image_flavor, resampled]

/-- Embedding of `create_simple_sample` (`dataset.py` lines 109 to 147).
The UID generator is modelled as a stream `Nat → String` together with a
counter: each Python call `uid_generator()` reads the stream at the
current counter and advances it, so the returned counter counts the calls
made.  Vocabulary tables are explicit parameters (one per category).
Resolution failures of the external constructors propagate as
`Except.error`, in the source's evaluation order: embedding medium, then
fixative, then the stainings. -/
def create_simple_sample (embV fixV stV : Vocab) (sample_id : String)
    (embedding_medium : Option String) (fixative : Option String)
    (stainings : Option (List String))
    (uid_generator : Nat → String) (counter : Nat) :
    Except DicomError (SpecimenDescription × Nat) :=
  match resolveOpt "embedding medium" embV embedding_medium with
  | Except.error e => Except.error e
  | Except.ok embedding_medium_code =>
    match resolveOpt "fixative" fixV fixative with
    | Except.error e => Except.error e
    | Except.ok fixative_code =>
      match stainings with
      | some l =>
        match resolveAll stV l with
        | Except.error e => Except.error e
        | Except.ok codes =>
          Except.ok
            ({ specimen_id := sample_id
               specimen_uid := uid_generator counter
               specimen_preparation_steps := some
                 [{ specimen_id := sample_id
                    processing_type := stainingProcedureCode
                    processing_procedure := { substances := codes }
                    embedding_medium := embedding_medium_code
                    fixative := fixative_code }] },
             counter + 1)
      | none =>
        Except.ok
          ({ specimen_id := sample_id
             specimen_uid := uid_generator counter
             specimen_preparation_steps := none },
           counter + 1)

/-- Record embedded from the dataset built by
`create_simple_specimen_module`: the container-level attributes it sets. -/
structure SpecimenModule where
  ContainerIdentifier : String
  ContainerTypeCode : Code
  ContainerComponentMaterial : String
  ContainerComponentTypeCode : Code
  SpecimenDescriptionSequence : List SpecimenDescription
  deriving DecidableEq, Repr

/-- Embedding of `create_simple_specimen_module` (`dataset.py` lines 150
to 185): fixed slide and coverslip codes, and the samples list stored as
the specimen description sequence. -/
def create_simple_specimen_module (slide_id : String)
    (samples : List SpecimenDescription) : SpecimenModule :=
  { ContainerIdentifier := slide_id
    ContainerTypeCode :=
      { value := "258661006", scheme := "SCT", meaning := "Slide" }
    ContainerComponentMaterial := "GLASS"
    ContainerComponentTypeCode :=
      { value := "433472003", scheme := "SCT"
        meaning := "Microscope slide coverslip" }
    SpecimenDescriptionSequence := samples }

/-- First string of a list that is not registered in the given
vocabulary, if any: the string at which the staining list comprehension
of `create_simple_sample` would fail. -/
def firstUnresolved (v : Vocab) : List String → Option String
  | [] => none
  | s :: rest =>
    match v.lookup s with
    | none => some s
    | some _ => firstUnresolved v rest

/-- Decidable statement that an optional string argument resolves in the
given vocabulary: absent, or registered. -/
def optRegistered (v : Vocab) : Option String → Bool
  | some s => (v.lookup s).isSome
  | none => true

/-- Vocabulary with no registered strings, used for concrete instances
where no resolution is exercised or failure is wanted. -/
def emptyVocab : Vocab := { lookup := fun _ => none }

/-- Concrete staining code used by the witnesses. -/
def hematoxylinCode : Code :=
  { value := "12710003", scheme := "SCT", meaning := "hematoxylin stain" }

/-- Concrete staining code used by the witnesses. -/
def eosinCode : Code :=
  { value := "24093008", scheme := "SCT"
    meaning := "water soluble eosin stain" }

/-- Concrete staining vocabulary for witnesses: registers the two strings
used by the round-trip examples. -/
def demoStainVocab : Vocab :=
  { lookup := fun s =>
      if s = "hematoxylin stain" then some hematoxylinCode
      else if s = "water soluble eosin stain" then some eosinCode
      else none }

/-- Concrete deterministic UID stream used by the witnesses. -/
def demoUid : Nat → String := fun n =>
  "1.2.826.0.1.3680043.8.498." ++ toString n

/-- Concrete staining list used by the round-trip witness. -/
def demoStainings : List String :=
  ["hematoxylin stain", "water soluble eosin stain"]

/-- Specimen description produced by `create_simple_sample` on the
witness inputs `"S1"`, no embedding medium, no fixative,
`demoStainings`, `demoUid`, counter 0. -/
def demoDescription : SpecimenDescription :=
  { specimen_id := "S1"
    specimen_uid := demoUid 0
    specimen_preparation_steps := some
      [{ specimen_id := "S1"
         processing_type := stainingProcedureCode
         processing_procedure := { substances := [hematoxylinCode, eosinCode] }
         embedding_medium := none
         fixative := none }] }

/-- Specimen description produced by `create_simple_sample` on the
witness inputs `"S1"` with all optional arguments absent. -/
def demoPlainDescription : SpecimenDescription :=
  { specimen_id := "S1"
    specimen_uid := demoUid 0
    specimen_preparation_steps := none }

/-- Specimen description produced by `create_simple_sample` on the
witness inputs `"S2"` with all optional arguments absent: same UID
stream and counter as `demoPlainDescription`, different identifier. -/
def demoPlainDescription2 : SpecimenDescription :=
  { specimen_id := "S2"
    specimen_uid := demoUid 0
    specimen_preparation_steps := none }

/- Helper lemmas about the resolving constructors. -/

/-- Successful resolution means the string is registered with that code. -/
theorem resolveCode_ok (cat : String) (v : Vocab) (s : String) (c : Code)
    (h : resolveCode cat v s = Except.ok c) : v.lookup s = some c := by
  unfold resolveCode at h
  split at h
  · rename_i c0 hl
    simp only [Except.ok.injEq] at h
    rw [hl, h]
  · exact absurd h (by simp)

/-- Successful list resolution preserves the length. -/
theorem resolveAll_length (v : Vocab) (L : List String) (codes : List Code)
    (h : resolveAll v L = Except.ok codes) : codes.length = L.length := by
  induction L generalizing codes with
  | nil =>
    simp only [resolveAll, Except.ok.injEq] at h
    rw [← h]
    rfl
  | cons s rest ih =>
    unfold resolveAll at h
    split at h
    · exact absurd h (by simp)
    · rename_i c heq
      split at h
      · exact absurd h (by simp)
      · rename_i cs heq2
        simp only [Except.ok.injEq] at h
        rw [← h]
        simp [ih cs heq2]

/-- Successful list resolution is the pointwise lookup, in input order. -/
theorem resolveAll_get (v : Vocab) (L : List String) (codes : List Code)
    (h : resolveAll v L = Except.ok codes) (i : Nat) :
    (L.get? i).bind v.lookup = codes.get? i := by
  induction L generalizing codes i with
  | nil =>
    simp only [resolveAll, Except.ok.injEq] at h
    rw [← h]
    simp
  | cons s rest ih =>
    unfold resolveAll at h
    split at h
    · exact absurd h (by simp)
    · rename_i c heq
      split at h
      · exact absurd h (by simp)
      · rename_i cs heq2
        simp only [Except.ok.injEq] at h
        rw [← h]
        cases i with
        | zero =>
          simp only [List.get?_cons_zero, Option.some_bind]
          rw [resolveCode_ok "staining" v s c heq]
        | succ n =>
          simp only [List.get?_cons_succ]
          exact ih cs heq2 n

/-- List resolution fails exactly at the first unregistered string, with
an error naming that string, which is a member of the list. -/
theorem firstUnresolved_spec (v : Vocab) (L : List String) (s : String)
    (h : firstUnresolved v L = some s) :
    resolveAll v L =
      Except.error (DicomError.UnknownCodeError "staining" s) ∧
    s ∈ L ∧ v.lookup s = none := by
  induction L with
  | nil => simp [firstUnresolved] at h
  | cons t rest ih =>
    unfold firstUnresolved at h
    split at h
    · rename_i hl
      simp only [Option.some.injEq] at h
      subst h
      refine ⟨?_, List.mem_cons_self t rest, hl⟩
      simp [resolveAll, resolveCode, hl]
    · rename_i c hl
      obtain ⟨hra, hmem, hnone⟩ := ih h
      refine ⟨?_, List.mem_cons_of_mem t hmem, hnone⟩
      simp [resolveAll, resolveCode, hl, hra]

/-- Resolution of a registered-or-absent optional argument succeeds. -/
theorem optRegistered_resolveOpt (cat : String) (v : Vocab)
    (o : Option String) (h : optRegistered v o = true) :
    ∃ oc, resolveOpt cat v o = Except.ok oc := by
  cases o with
  | none => exact ⟨none, rfl⟩
  | some s =>
    simp only [optRegistered, Option.isSome_iff_exists] at h
    obtain ⟨c, hc⟩ := h
    exact ⟨some c, by simp [resolveOpt, resolveCode, hc]⟩

/-- Inversion of a successful `create_simple_sample` call: both optional
arguments resolved, the counter advanced by exactly one, the identifier
and the UID are stored verbatim, and the preparation steps are absent
exactly when the stainings argument is, otherwise one step built from
the resolved staining codes. -/
theorem create_simple_sample_ok_shape (embV fixV stV : Vocab)
    (sid : String) (em fx : Option String) (st : Option (List String))
    (gen : Nat → String) (c : Nat) (r : SpecimenDescription) (c' : Nat)
    (h : create_simple_sample embV fixV stV sid em fx st gen c =
      Except.ok (r, c')) :
    ∃ emc fxc : Option Code,
      resolveOpt "embedding medium" embV em = Except.ok emc ∧
      resolveOpt "fixative" fixV fx = Except.ok fxc ∧
      c' = c + 1 ∧ r.specimen_id = sid ∧ r.specimen_uid = gen c ∧
      ((st = none ∧ r.specimen_preparation_steps = none) ∨
        ∃ (L : List String) (codes : List Code),
          st = some L ∧ resolveAll stV L = Except.ok codes ∧
          r.specimen_preparation_steps = some
            [{ specimen_id := sid
               processing_type := stainingProcedureCode
               processing_procedure := { substances := codes }
               embedding_medium := emc
               fixative := fxc }]) := by
  unfold create_simple_sample at h
  split at h
  · exact absurd h (by simp)
  · rename_i emc hem
    split at h
    · exact absurd h (by simp)
    · rename_i fxc hfx
      cases st with
      | none =>
        simp only [Except.ok.injEq, Prod.mk.injEq] at h
        obtain ⟨h1, h2⟩ := h
        subst h1
        exact ⟨emc, fxc, hem, hfx, h2.symm, rfl, rfl, Or.inl ⟨rfl, rfl⟩⟩
      | some L =>
        split at h
        · rename_i l hst
          injection hst with hst
          subst hst
          split at h
          · exact absurd h (by simp)
          · rename_i codes hra
            simp only [Except.ok.injEq, Prod.mk.injEq] at h
            obtain ⟨h1, h2⟩ := h
            subst h1
            exact ⟨emc, fxc, hem, hfx, h2.symm, rfl, rfl,
              Or.inr ⟨L, codes, rfl, hra, rfl⟩⟩
        · rename_i hst
          exact absurd hst (by simp)

/- Claim theorems. -/

/-- C1, counterexample: calling `create_simple_sample` with an empty
(not absent) stainings list does produce a Preparation Step — the
resulting description carries exactly one step, whose staining substance
list is empty — so the claim that an empty stainings list yields a
description with no Preparation Step is false on the code. -/
theorem C1_counterexample :
    (create_simple_sample emptyVocab emptyVocab emptyVocab "S1" none none
        (some []) demoUid 0).map
        (fun p => p.1.specimen_preparation_steps.map List.length) =
      Except.ok (some 1) ∧
    (some 1 : Option Nat) ≠ none := ⟨rfl, by simp⟩

/-- C1, amended: if the stainings argument is absent (`None`), the
specimen description produced by `create_simple_sample` has no
Preparation Step, regardless of the embedding-medium and fixative
arguments; an empty stainings list instead produces one step with an
empty staining list. -/
theorem C1_absent_stainings_no_step (embV fixV stV : Vocab) (sid : String)
    (em fx : Option String) (gen : Nat → String) (c : Nat)
    (r : SpecimenDescription) (c' : Nat)
    (h : create_simple_sample embV fixV stV sid em fx none gen c =
      Except.ok (r, c')) :
    r.specimen_preparation_steps = none := by
  obtain ⟨emc, fxc, -, -, -, -, -, hcase⟩ :=
    create_simple_sample_ok_shape embV fixV stV sid em fx none gen c r c' h
  rcases hcase with ⟨-, hnone⟩ | ⟨L, codes, hst, -, -⟩
  · exact hnone
  · exact absurd hst (by simp)

/-- Witness for C1 at concrete inputs. -/
theorem C1_absent_stainings_no_step_witness :
    demoPlainDescription.specimen_preparation_steps = none :=
  C1_absent_stainings_no_step emptyVocab emptyVocab emptyVocab "S1" none
    none demoUid 0 demoPlainDescription 1 rfl

/-- C2: if the optional embedding-medium and fixative arguments resolve,
and the stainings list contains an unregistered string, then
`create_simple_sample` fails with an `UnknownCodeError` naming the first
unregistered staining string — a member of the list on which lookup
fails — and produces no record (the result is the bare error). -/
theorem C2_unknown_staining_fails (embV fixV stV : Vocab) (sid : String)
    (em fx : Option String) (L : List String) (gen : Nat → String)
    (c : Nat) (s : String)
    (hem : optRegistered embV em = true)
    (hfx : optRegistered fixV fx = true)
    (hs : firstUnresolved stV L = some s) :
    create_simple_sample embV fixV stV sid em fx (some L) gen c =
      Except.error (DicomError.UnknownCodeError "staining" s) ∧
    s ∈ L ∧ stV.lookup s = none := by
  obtain ⟨hra, hmem, hnone⟩ := firstUnresolved_spec stV L s hs
  obtain ⟨emc, hemc⟩ :=
    optRegistered_resolveOpt "embedding medium" embV em hem
  obtain ⟨fxc, hfxc⟩ := optRegistered_resolveOpt "fixative" fixV fx hfx
  refine ⟨?_, hmem, hnone⟩
  simp only [create_simple_sample, hemc, hfxc, hra]

/-- Witness for C2 at concrete inputs. -/
theorem C2_unknown_staining_fails_witness :
    create_simple_sample emptyVocab emptyVocab demoStainVocab "S1" none
        none (some ["hematoxylin stain", "Unobtainium"]) demoUid 0 =
      Except.error
        (DicomError.UnknownCodeError "staining" "Unobtainium") ∧
    "Unobtainium" ∈ ["hematoxylin stain", "Unobtainium"] ∧
    demoStainVocab.lookup "Unobtainium" = none :=
  C2_unknown_staining_fails emptyVocab emptyVocab demoStainVocab "S1" none
    none ["hematoxylin stain", "Unobtainium"] demoUid 0 "Unobtainium" rfl
    rfl (by decide)

/-- C3: on a successful call with a non-empty stainings list, the single
Preparation Step of the result carries exactly one staining code per
input string, in input order: position for position, the vocabulary
resolution of the input list equals the stored substance list, so
nothing is dropped, added or reordered. -/
theorem C3_staining_order_roundtrip (embV fixV stV : Vocab) (sid : String)
    (em fx : Option String) (L : List String) (gen : Nat → String)
    (c : Nat) (r : SpecimenDescription) (c' : Nat) (hL : L ≠ [])
    (h : create_simple_sample embV fixV stV sid em fx (some L) gen c =
      Except.ok (r, c')) :
    ∃ step : SpecimenPreparationStep,
      r.specimen_preparation_steps = some [step] ∧
      step.processing_procedure.substances.length = L.length ∧
      ∀ i : Nat, (L.get? i).bind stV.lookup =
        step.processing_procedure.substances.get? i := by
  obtain ⟨emc, fxc, -, -, -, -, -, hcase⟩ :=
    create_simple_sample_ok_shape embV fixV stV sid em fx (some L) gen c
      r c' h
  rcases hcase with ⟨hst, -⟩ | ⟨L2, codes, hst, hra, hsteps⟩
  · exact absurd hst (by simp)
  · injection hst with hst
    subst hst
    refine ⟨_, hsteps, ?_, ?_⟩
    · exact resolveAll_length stV L codes hra
    · intro i
      exact resolveAll_get stV L codes hra i

/-- Witness for C3 at concrete inputs. -/
theorem C3_staining_order_roundtrip_witness :
    ∃ step : SpecimenPreparationStep,
      demoDescription.specimen_preparation_steps = some [step] ∧
      step.processing_procedure.substances.length =
        demoStainings.length ∧
      ∀ i : Nat, (demoStainings.get? i).bind demoStainVocab.lookup =
        step.processing_procedure.substances.get? i :=
  C3_staining_order_roundtrip emptyVocab emptyVocab demoStainVocab "S1"
    none none demoStainings demoUid 0 demoDescription 1 (by decide) rfl

/-- C4: on every successful call, `create_simple_sample` stores the UID
stream's value at the current counter verbatim as the specimen UID and
advances the counter by exactly one (the generator is consumed exactly
once); and a second call differing only in the specimen identifier
yields the same specimen UID, so the UID is not derived from the
identifier string. -/
theorem C4_uid_generated_once_unchanged (embV fixV stV : Vocab)
    (sid sid2 : String) (em fx : Option String)
    (st : Option (List String)) (gen : Nat → String) (c : Nat)
    (r r2 : SpecimenDescription) (c' c2 : Nat)
    (h : create_simple_sample embV fixV stV sid em fx st gen c =
      Except.ok (r, c'))
    (h2 : create_simple_sample embV fixV stV sid2 em fx st gen c =
      Except.ok (r2, c2)) :
    r.specimen_uid = gen c ∧ c' = c + 1 ∧
    r2.specimen_uid = r.specimen_uid := by
  obtain ⟨emc, fxc, -, -, hc, -, huid, -⟩ :=
    create_simple_sample_ok_shape embV fixV stV sid em fx st gen c r c' h
  obtain ⟨emc2, fxc2, -, -, -, -, huid2, -⟩ :=
    create_simple_sample_ok_shape embV fixV stV sid2 em fx st gen c r2
      c2 h2
  rw [huid, hc, huid2]
  exact ⟨rfl, rfl, rfl⟩

/-- Witness for C4 at concrete inputs. -/
theorem C4_uid_generated_once_unchanged_witness :
    demoPlainDescription.specimen_uid = demoUid 0 ∧ 1 = 0 + 1 ∧
    demoPlainDescription2.specimen_uid =
      demoPlainDescription.specimen_uid :=
  C4_uid_generated_once_unchanged emptyVocab emptyVocab emptyVocab "S1"
    "S2" none none none demoUid 0 demoPlainDescription
    demoPlainDescription2 1 1 rfl rfl

/-- C5: `create_simple_specimen_module` stores the input list of
specimen descriptions as the specimen description sequence unchanged —
same elements, same order, same length. -/
theorem C5_container_preserves_samples (slide_id : String)
    (samples : List SpecimenDescription) :
    (create_simple_specimen_module slide_id
        samples).SpecimenDescriptionSequence = samples ∧
    (create_simple_specimen_module slide_id
        samples).SpecimenDescriptionSequence.length = samples.length :=
  ⟨rfl, rfl⟩

/-- C6: on every successful call with a stainings list, the single
Preparation Step of the result carries the same specimen identifier as
the owning specimen description, and its processing type is the fixed
"Staining" procedure code. -/
theorem C6_step_identifier_and_processing_type (embV fixV stV : Vocab)
    (sid : String) (em fx : Option String) (L : List String)
    (gen : Nat → String) (c : Nat) (r : SpecimenDescription) (c' : Nat)
    (h : create_simple_sample embV fixV stV sid em fx (some L) gen c =
      Except.ok (r, c')) :
    ∃ step : SpecimenPreparationStep,
      r.specimen_preparation_steps = some [step] ∧
      step.specimen_id = r.specimen_id ∧
      step.processing_type = stainingProcedureCode := by
  obtain ⟨emc, fxc, -, -, -, hid, -, hcase⟩ :=
    create_simple_sample_ok_shape embV fixV stV sid em fx (some L) gen c
      r c' h
  rcases hcase with ⟨hst, -⟩ | ⟨L2, codes, -, -, hsteps⟩
  · exact absurd hst (by simp)
  · refine ⟨_, hsteps, ?_, rfl⟩
    rw [hid]

/-- Witness for C6 at concrete inputs. -/
theorem C6_step_identifier_and_processing_type_witness :
    ∃ step : SpecimenPreparationStep,
      demoDescription.specimen_preparation_steps = some [step] ∧
      step.specimen_id = demoDescription.specimen_id ∧
      step.processing_type = stainingProcedureCode :=
  C6_step_identifier_and_processing_type emptyVocab emptyVocab
    demoStainVocab "S1" none none demoStainings demoUid 0
    demoDescription 1 rfl

/-- C7: `get_image_type` is a total function whose result has exactly
four elements, whose third element is the flavor argument, and whose
fourth element is `"NONE"` exactly when the flavor is `"VOLUME"` and the
level index is `0`, and `"RESAMPLED"` otherwise. -/
theorem C7_get_image_type_total_shape (flavor : String) (idx : Int) :
    (get_image_type flavor idx).length = 4 ∧
    (get_image_type flavor idx).get? 2 = some flavor ∧
    (get_image_type flavor idx).get? 3 =
      some (if flavor = "VOLUME" ∧ idx = 0 then "NONE"
            else "RESAMPLED") ∧
    ((get_image_type flavor idx).get? 3 = some "NONE" ↔
      flavor = "VOLUME" ∧ idx = 0) := by
  unfold get_image_type
  by_cases hc : flavor = "VOLUME" ∧ idx = 0
  · simp [hc]
  · simp [hc]

/-- Witness for C7 at concrete inputs. -/
theorem C7_get_image_type_total_shape_witness :
    (get_image_type "VOLUME" 0).length = 4 ∧
    (get_image_type "VOLUME" 0).get? 2 = some "VOLUME" ∧
    (get_image_type "VOLUME" 0).get? 3 =
      some (if "VOLUME" = "VOLUME" ∧ (0 : Int) = 0 then "NONE"
            else "RESAMPLED") ∧
    ((get_image_type "VOLUME" 0).get? 3 = some "NONE" ↔
      "VOLUME" = "VOLUME" ∧ (0 : Int) = 0) :=
  C7_get_image_type_total_shape "VOLUME" 0

/-- C8, counterexample: the first element of the image type returned by
`get_image_type` is the source's literal `"ORGINAL"`, not `"ORIGINAL"`,
so the claimed value `["ORIGINAL", "PRIMARY", flavor, flag]` is false at
flavor `"VOLUME"`, level `0`. -/
theorem C8_counterexample :
    get_image_type "VOLUME" 0 =
      ["ORGINAL", "PRIMARY", "VOLUME", "NONE"] ∧
    (get_image_type "VOLUME" 0).get? 0 ≠ some "ORIGINAL" := by
  exact ⟨by decide, by decide⟩

/-- C8, amended: for every flavor and level index the result equals
`["ORGINAL", "PRIMARY", flavor, resampled_flag]`, with the first element
spelled exactly as the transposed source literal. -/
theorem C8_transposed_first_element (flavor : String) (idx : Int) :
    get_image_type flavor idx =
      ["ORGINAL", "PRIMARY", flavor,
        if flavor = "VOLUME" ∧ idx = 0 then "NONE" else "RESAMPLED"] :=
  rfl

/-- C9, counterexample: with an empty specimen identifier,
`create_simple_sample` succeeds and returns a record whose specimen
identifier is the empty string, and `create_simple_specimen_module`
stores an empty container identifier — no failure occurs, so the claimed
fail-fast `MissingIdentifierError` behaviour is false on the code. -/
theorem C9_counterexample :
    create_simple_sample emptyVocab emptyVocab emptyVocab "" none none
        none demoUid 0 =
      Except.ok
        ({ specimen_id := ""
           specimen_uid := demoUid 0
           specimen_preparation_steps := none }, 1) ∧
    (create_simple_specimen_module "" []).ContainerIdentifier = "" :=
  ⟨rfl, rfl⟩

/-- C9, amended: neither builder validates identifiers — an empty
specimen identifier is accepted by `create_simple_sample` and stored
verbatim, and an empty container identifier is accepted by
`create_simple_specimen_module` and stored verbatim. -/
theorem C9_no_identifier_validation (embV fixV stV : Vocab)
    (gen : Nat → String) (c : Nat)
    (samples : List SpecimenDescription) :
    (create_simple_sample embV fixV stV "" none none none gen c).map
        (fun p => p.1.specimen_id) = Except.ok "" ∧
    (create_simple_specimen_module "" samples).ContainerIdentifier = "" :=
  ⟨rfl, rfl⟩

/-- C10: embedding-medium and fixative strings are resolved before the
stainings gate: with the stainings argument absent, an unregistered
embedding-medium string makes `create_simple_sample` fail with an
`UnknownCodeError` for the embedding-medium category, and likewise an
unregistered fixative string for the fixative category, even though the
resolved codes would be discarded. -/
theorem C10_eager_resolution_without_stainings (embV fixV stV : Vocab)
    (sid s t : String) (fx : Option String) (gen : Nat → String)
    (c : Nat) (hem : embV.lookup s = none)
    (hfx : fixV.lookup t = none) :
    create_simple_sample embV fixV stV sid (some s) fx none gen c =
      Except.error
        (DicomError.UnknownCodeError "embedding medium" s) ∧
    create_simple_sample embV fixV stV sid none (some t) none gen c =
      Except.error (DicomError.UnknownCodeError "fixative" t) := by
  constructor
  · simp only [create_simple_sample, resolveOpt, resolveCode, hem]
  · simp only [create_simple_sample, resolveOpt, resolveCode, hfx]

/-- Witness for C10 at concrete inputs. -/
theorem C10_eager_resolution_without_stainings_witness :
    create_simple_sample emptyVocab emptyVocab emptyVocab "S1"
        (some "Unobtainium") none none demoUid 0 =
      Except.error
        (DicomError.UnknownCodeError "embedding medium"
          "Unobtainium") ∧
    create_simple_sample emptyVocab emptyVocab emptyVocab "S1" none
        (some "Paraffin") none demoUid 0 =
      Except.error
        (DicomError.UnknownCodeError "fixative" "Paraffin") :=
  C10_eager_resolution_without_stainings emptyVocab emptyVocab emptyVocab
    "S1" "Unobtainium" "Paraffin" none demoUid 0 rfl rfl

end WsiDicomizer
